import Mathlib

/-!
Verification of the divergence/reversal detection core of the
`rsi-divergence-bot` repository.

The Python sources under `src/analyzer/divergence_detector.py`,
`src/analyzer/rsi_sr_detector.py` and `src/backtester.py` are shallowly
embedded below.  Market prices, RSI values and volumes are modelled as exact
rationals (`ℚ`); a pandas dataframe becomes a record of parallel column
lists; Python `None` results become `Option`.  Python's `round` (banker's
rounding) is modelled exactly on `ℚ`.  The square root inside `numpy.std`
is modelled by `ratSqrt`, which is exact whenever the radicand is a perfect
rational square (all concrete inputs used in this file have variance 0); no
theorem below depends on the value of `ratSqrt` outside those exact cases.
-/

set_option maxRecDepth 200000

namespace RsiBot

/-! ## Small Python/numpy helpers -/

/-- Python slice `l[a:b]` (for `0 ≤ a ≤ b`, indices clipped to the list). -/
def listSlice (a b : ℕ) (l : List ℚ) : List ℚ :=
  (l.take b).drop a

/-- Minimum of a list of rationals (`np.min` / built-in `min`); `0` on the
empty list, which every call site below avoids. -/
def listMin : List ℚ → ℚ
  | [] => 0
  | x :: xs => xs.foldl min x

/-- Maximum of a list of rationals (`np.max` / built-in `max`); `0` on the
empty list, which every call site below avoids. -/
def listMax : List ℚ → ℚ
  | [] => 0
  | x :: xs => xs.foldl max x

/-- Arithmetic mean of a list (`Series.mean`); `0` on the empty list. -/
def mean (l : List ℚ) : ℚ :=
  l.sum / (l.length : ℚ)

/-- Last element of a list with a default (`iloc[-1]`). -/
def lastD {α : Type} [Inhabited α] (l : List α) : α :=
  l.getD (l.length - 1) default

/-- Round to the nearest integer, ties to even: Python's `round` on exact
values. -/
def roundHalfEven (q : ℚ) : ℤ :=
  if q - q.floor < 1/2 then q.floor
  else if 1/2 < q - q.floor then q.floor + 1
  else if q.floor % 2 = 0 then q.floor else q.floor + 1

/-- Python `round(q, n)` on exact rationals. -/
def pyRound (q : ℚ) (n : ℕ) : ℚ :=
  (roundHalfEven (q * 10 ^ n) : ℚ) / 10 ^ n

/-- Rational square root `√(num/den) = √(num·den)/den`, exact whenever
`num·den` is a perfect square (in particular on `0` and on squares of
naturals); otherwise a floor approximation.  Models the `numpy` float square
root inside `np.std`; every concrete evaluation in this file hits the exact
case. -/
def ratSqrt (q : ℚ) : ℚ :=
  (Nat.sqrt (q.num.toNat * q.den) : ℚ) / (q.den : ℚ)

/-- Population standard deviation (`np.std`), square root via `ratSqrt`.
`np.std` of an empty list is NaN in numpy; here it is `0`, a case no
reachable call site produces (touch lists are gated by `min_touches`). -/
def npStd (l : List ℚ) : ℚ :=
  ratSqrt ((l.map (fun x => (x - mean l) ^ 2)).sum / (l.length : ℚ))

/-! ## Data model

A pandas dataframe of candles, after `RSICalculator.calculate_rsi` has
re-indexed it from zero: parallel column lists indexed by position.  The
`open` column exists in the repository's dataframes but is never read by the
detection core, so it is omitted here.  `volumeCol`/`rsiCol` are `none` when
the corresponding column is absent (`'volume' / 'rsi' not in df.columns`). -/
structure DF where
  timestamp : List ℤ
  high : List ℚ
  low : List ℚ
  close : List ℚ
  volumeCol : Option (List ℚ)
  rsiCol : Option (List ℚ)
deriving DecidableEq

/-- Number of rows, `len(df)` (all columns of a well-formed dataframe have
the same length; the `close` column is the canonical one here). -/
def DF.length (df : DF) : ℕ :=
  df.close.length

/-- The `rsi` column as a list, `[]` when absent. -/
def DF.rsi (df : DF) : List ℚ :=
  df.rsiCol.getD []

/-! ## Pivot extraction (`HumanLikeDivergenceDetector`, divergence_detector.py)

`scipy.signal.argrelextrema(data, comparator, order)` with the default
`mode='clip'`: index `i` is reported when `comparator(data[i], data[i±s])`
holds for every shift `s = 1..order`, out-of-range indices clipped to the
array bounds (`i-s` clips to `0` via truncated `ℕ` subtraction, `i+s` to
`len-1`). -/
def relGreaterAt (data : List ℚ) (order : ℕ) (i : ℕ) : Bool :=
  decide (∀ s ∈ List.range order,
    data.getD (min (i + (s + 1)) (data.length - 1)) 0 < data.getD i 0 ∧
    data.getD (i - (s + 1)) 0 < data.getD i 0)

/-- Indices of local maxima: `argrelextrema(data, np.greater, order)[0]`. -/
def argrelGreater (data : List ℚ) (order : ℕ) : List ℕ :=
  (List.range data.length).filter (fun i => relGreaterAt data order i)

/-- Dual of `relGreaterAt` for local minima (`np.less`). -/
def relLessAt (data : List ℚ) (order : ℕ) (i : ℕ) : Bool :=
  decide (∀ s ∈ List.range order,
    data.getD i 0 < data.getD (min (i + (s + 1)) (data.length - 1)) 0 ∧
    data.getD i 0 < data.getD (i - (s + 1)) 0)

/-- Indices of local minima: `argrelextrema(data, np.less, order)[0]`. -/
def argrelLess (data : List ℚ) (order : ℕ) : List ℕ :=
  (List.range data.length).filter (fun i => relLessAt data order i)

/-- Detector parameters of `HumanLikeDivergenceDetector.__init__`, with the
constructor's default values. -/
structure HumanLikeDivergenceDetector where
  minPeakProminence : ℚ := 2
  minRsiDivergence : ℚ := 5
  lookbackCandles : ℕ := 50
  requireConfirmation : Bool := true
  minTimeBetweenPeaks : ℕ := 5
deriving DecidableEq

/-- A pivot record `{'index': i, 'value': v, 'prominence': p}`. -/
structure Pivot where
  index : ℕ
  value : ℚ
  prominence : ℚ
deriving DecidableEq

/-- Left-side prominence the source computes for a peak at `i`: percentage
rise of `data[i]` over the minimum of the 10 bars `data[max(0,i-10):i]`,
and `0` when that minimum is not positive. -/
def peakLeftProminence (data : List ℚ) (i : ℕ) : ℚ :=
  let leftMin := listMin (listSlice (i - 10) i data)
  if 0 < leftMin then (data.getD i 0 - leftMin) / leftMin * 100 else 0

/-- Right-side prominence the source computes for a peak at `i`: against
the minimum of `data[i+1:min(len, i+10)]` — the 9 bars `i+1 .. i+9`, the
slice end being exclusive. -/
def peakRightProminence (data : List ℚ) (i : ℕ) : ℚ :=
  let rightMin := listMin (listSlice (i + 1) (min data.length (i + 10)) data)
  if 0 < rightMin then (data.getD i 0 - rightMin) / rightMin * 100 else 0

/-- Left-side prominence for a trough at `i`: percentage drop from the
maximum of the 10 bars before it, relative to the trough value, and `0`
when the trough value is not positive. -/
def troughLeftProminence (data : List ℚ) (i : ℕ) : ℚ :=
  let leftMax := listMax (listSlice (i - 10) i data)
  if 0 < data.getD i 0 then (leftMax - data.getD i 0) / data.getD i 0 * 100
  else 0

/-- Right-side prominence for a trough at `i`: against the maximum of the
9 bars `i+1 .. i+9`. -/
def troughRightProminence (data : List ℚ) (i : ℕ) : ℚ :=
  let rightMax := listMax (listSlice (i + 1) (min data.length (i + 10)) data)
  if 0 < data.getD i 0 then (rightMax - data.getD i 0) / data.getD i 0 * 100
  else 0

/-- `find_prominent_peaks(df, column='high')` at its only call site
(`column='high'`): prominent local maxima away from the edges whose
prominence reaches `min_peak_prominence` on both sides. -/
def findProminentPeaks (cfg : HumanLikeDivergenceDetector) (df : DF) :
    List Pivot :=
  if df.length < 20 then []
  else
    let data := df.high
    let peaks := argrelGreater data 3
    peaks.filterMap (fun peakIdx =>
      if peakIdx < 5 ∨ data.length - 5 ≤ peakIdx then none
      else
        let leftProminence := peakLeftProminence data peakIdx
        let rightProminence := peakRightProminence data peakIdx
        if cfg.minPeakProminence ≤ leftProminence ∧
            cfg.minPeakProminence ≤ rightProminence then
          some ⟨peakIdx, data.getD peakIdx 0,
            min leftProminence rightProminence⟩
        else none)

/-- `find_prominent_troughs(df, column='low')` at its only call site
(`column='low'`); windows mirror `findProminentPeaks`. -/
def findProminentTroughs (cfg : HumanLikeDivergenceDetector) (df : DF) :
    List Pivot :=
  if df.length < 20 then []
  else
    let data := df.low
    let troughs := argrelLess data 3
    troughs.filterMap (fun troughIdx =>
      if troughIdx < 5 ∨ data.length - 5 ≤ troughIdx then none
      else
        let leftProminence := troughLeftProminence data troughIdx
        let rightProminence := troughRightProminence data troughIdx
        if cfg.minPeakProminence ≤ leftProminence ∧
            cfg.minPeakProminence ≤ rightProminence then
          some ⟨troughIdx, data.getD troughIdx 0,
            min leftProminence rightProminence⟩
        else none)

/-! ## Divergence validation and scoring -/

/-- The two divergence kinds (the source passes the strings `'BEARISH'` and
`'BULLISH'`). -/
inductive DivType where
  | BEARISH
  | BULLISH
deriving DecidableEq

/-- A pivot paired with the RSI value at its index, as built by
`get_rsi_at_peaks` (and by the identical inline loop of
`detect_bullish_divergence`). -/
structure PeakRsi where
  index : ℕ
  price : ℚ
  rsi : ℚ
  prominence : ℚ
deriving DecidableEq

/-- `get_rsi_at_peaks(df, price_peaks)`. -/
def getRsiAtPeaks (df : DF) (pricePeaks : List Pivot) : List PeakRsi :=
  pricePeaks.filterMap (fun peak =>
    if peak.index < df.length then
      some ⟨peak.index, peak.value, df.rsi.getD peak.index 0, peak.prominence⟩
    else none)

/-- `validate_divergence_alignment(peak1, peak2, divergence_type)`: the pair
of the returned flag and reason string.  The source's formatted reason
strings are kept without their interpolated numbers. -/
def validateDivergenceAlignment (cfg : HumanLikeDivergenceDetector)
    (peak1 peak2 : PeakRsi) (ty : DivType) : Bool × String :=
  let timeDistance := ((peak2.index : ℤ) - (peak1.index : ℤ)).natAbs
  if timeDistance < cfg.minTimeBetweenPeaks then
    (false, "Peaks too close together")
  else if cfg.lookbackCandles < timeDistance then
    (false, "Peaks too far apart")
  else
    let priceChangePct := |(peak2.price - peak1.price) / peak1.price * 100|
    if priceChangePct < 1/2 then (false, "Price difference too small")
    else
      let rsiDiff := |peak2.rsi - peak1.rsi|
      if rsiDiff < cfg.minRsiDivergence then
        (false, "RSI divergence too small")
      else
        match ty with
        | .BEARISH =>
          if peak1.price < peak2.price ∧ peak2.rsi < peak1.rsi then
            if rsiDiff < cfg.minRsiDivergence then
              (false, "RSI drop not significant enough")
            else (true, "Valid")
          else (false, "Pattern does not match bearish divergence")
        | .BULLISH =>
          if peak2.price < peak1.price ∧ peak1.rsi < peak2.rsi then
            if rsiDiff < cfg.minRsiDivergence then
              (false, "RSI rise not significant enough")
            else (true, "Valid")
          else (false, "Pattern does not match bullish divergence")

/-- `check_price_action_confirms(df, divergence, current_idx)`: looks at the
three closes after `current_idx` when confirmation is required; always
confirms otherwise. -/
def checkPriceActionConfirms (cfg : HumanLikeDivergenceDetector) (df : DF)
    (divergence : DivType) (currentIdx : ℕ) : Bool × String :=
  if cfg.requireConfirmation then
    if df.length ≤ currentIdx + 3 then
      (false, "Not enough candles after signal")
    else
      let currentPrice := df.close.getD currentIdx 0
      let nextPrices := listSlice (currentIdx + 1) (currentIdx + 4) df.close
      match divergence with
      | .BEARISH =>
        let fallingCandles := (nextPrices.filter (fun p => decide (p < currentPrice))).length
        if fallingCandles < 2 then
          (false, "Price not falling after bearish divergence")
        else (true, "Confirmed")
      | .BULLISH =>
        let risingCandles := (nextPrices.filter (fun p => decide (currentPrice < p))).length
        if risingCandles < 2 then
          (false, "Price not rising after bullish divergence")
        else (true, "Confirmed")
  else (true, "Confirmed")

/-- The three magnitude components of `_calculate_quality_score` (price 30
points, RSI 30 points, prominence 20 points), before the confirmation
bonus. -/
def qualityBase (priceChangePct rsiChange prominence : ℚ) : ℚ :=
  min (|priceChangePct| * 6) 30 + min (|rsiChange| * 3) 30 +
    min (prominence * 4) 20

/-- `_calculate_quality_score(price_change_pct, rsi_change, prominence,
confirmed)`: components, 20-point confirmation bonus, `round(total, 1)`,
capped at 100. -/
def calculateQualityScore (priceChangePct rsiChange prominence : ℚ)
    (confirmed : Bool) : ℚ :=
  min (pyRound (qualityBase priceChangePct rsiChange prominence +
    (if confirmed then 20 else 0)) 1) 100

/-- `_get_quality_label(quality)`. -/
def getQualityLabel (quality : ℚ) : String :=
  if 85 ≤ quality then "Excellent ⭐⭐⭐⭐⭐"
  else if 75 ≤ quality then "Very Good ⭐⭐⭐⭐"
  else if 65 ≤ quality then "Good ⭐⭐⭐"
  else "Fair ⭐⭐"

/-- The dictionary returned by `detect_bearish_divergence` /
`detect_bullish_divergence`.  `idx1`/`idx2` are the source's
`peak1_idx`/`peak2_idx` (`trough1_idx`/`trough2_idx` for bullish); the
`explanation` string, pure formatting of fields already present, is
omitted. -/
structure DivergenceSignal where
  type : DivType
  idx1 : ℕ
  idx2 : ℕ
  price1 : ℚ
  price2 : ℚ
  rsi1 : ℚ
  rsi2 : ℚ
  priceChangePct : ℚ
  rsiChange : ℚ
  currentPrice : ℚ
  currentRsi : ℚ
  timestamp : ℤ
  quality : ℚ
  qualityLabel : String
  confirmed : Bool
  validation : String
deriving DecidableEq

/-- Tail of `detect_bearish_divergence` from the alignment validation on
(source lines 245-290), applied to the last two prominent peaks. -/
def bearishFromPeaks (cfg : HumanLikeDivergenceDetector) (df : DF)
    (peak1 peak2 : PeakRsi) : Option DivergenceSignal :=
  let v := validateDivergenceAlignment cfg peak1 peak2 .BEARISH
  if v.1 = false then none
  else
    let conf := checkPriceActionConfirms cfg df .BEARISH peak2.index
    if conf.1 = false ∧ cfg.requireConfirmation then none
    else
      let priceChangePct := (peak2.price - peak1.price) / peak1.price * 100
      let rsiChange := peak1.rsi - peak2.rsi
      let quality := calculateQualityScore priceChangePct rsiChange
        (min peak1.prominence peak2.prominence) conf.1
      if quality < 60 then none
      else some
        { type := .BEARISH
          idx1 := peak1.index
          idx2 := peak2.index
          price1 := peak1.price
          price2 := peak2.price
          rsi1 := peak1.rsi
          rsi2 := peak2.rsi
          priceChangePct := pyRound priceChangePct 2
          rsiChange := pyRound rsiChange 2
          currentPrice := lastD df.close
          currentRsi := pyRound (lastD df.rsi) 2
          timestamp := lastD df.timestamp
          quality := quality
          qualityLabel := getQualityLabel quality
          confirmed := conf.1
          validation := v.2 }

/-- `detect_bearish_divergence(df)`.  The `df is None` guard is subsumed by
the model (a `DF` value is never `None`). -/
def detectBearishDivergence (cfg : HumanLikeDivergenceDetector) (df : DF) :
    Option DivergenceSignal :=
  if df.rsiCol.isNone ∨ df.length < 30 then none
  else
    let pricePeaks := findProminentPeaks cfg df
    if pricePeaks.length < 2 then none
    else
      let peaksWithRsi := getRsiAtPeaks df pricePeaks
      if peaksWithRsi.length < 2 then none
      else
        bearishFromPeaks cfg df
          (peaksWithRsi.getD (peaksWithRsi.length - 2) ⟨0, 0, 0, 0⟩)
          (peaksWithRsi.getD (peaksWithRsi.length - 1) ⟨0, 0, 0, 0⟩)

/-- Tail of `detect_bullish_divergence` from the inline direction pre-check
on (source lines 330-379), applied to the last two prominent troughs. -/
def bullishFromTroughs (cfg : HumanLikeDivergenceDetector) (df : DF)
    (trough1 trough2 : PeakRsi) : Option DivergenceSignal :=
  let priceChangePct := (trough1.price - trough2.price) / trough1.price * 100
  let rsiChange := trough2.rsi - trough1.rsi
  if ¬(trough2.price < trough1.price ∧ trough1.rsi < trough2.rsi) then none
  else if |rsiChange| < cfg.minRsiDivergence then none
  else
    let v := validateDivergenceAlignment cfg trough1 trough2 .BULLISH
    if v.1 = false then none
    else
      let conf := checkPriceActionConfirms cfg df .BULLISH trough2.index
      if conf.1 = false ∧ cfg.requireConfirmation then none
      else
        let quality := calculateQualityScore |priceChangePct| |rsiChange|
          (min trough1.prominence trough2.prominence) conf.1
        if quality < 60 then none
        else some
          { type := .BULLISH
            idx1 := trough1.index
            idx2 := trough2.index
            price1 := trough1.price
            price2 := trough2.price
            rsi1 := trough1.rsi
            rsi2 := trough2.rsi
            priceChangePct := pyRound |priceChangePct| 2
            rsiChange := pyRound rsiChange 2
            currentPrice := lastD df.close
            currentRsi := pyRound (lastD df.rsi) 2
            timestamp := lastD df.timestamp
            quality := quality
            qualityLabel := getQualityLabel quality
            confirmed := conf.1
            validation := v.2 }

/-- `detect_bullish_divergence(df)` (its inline trough-with-RSI loop is the
same code as `get_rsi_at_peaks`). -/
def detectBullishDivergence (cfg : HumanLikeDivergenceDetector) (df : DF) :
    Option DivergenceSignal :=
  if df.rsiCol.isNone ∨ df.length < 30 then none
  else
    let priceTroughs := findProminentTroughs cfg df
    if priceTroughs.length < 2 then none
    else
      let troughsWithRsi := getRsiAtPeaks df priceTroughs
      if troughsWithRsi.length < 2 then none
      else
        bullishFromTroughs cfg df
          (troughsWithRsi.getD (troughsWithRsi.length - 2) ⟨0, 0, 0, 0⟩)
          (troughsWithRsi.getD (troughsWithRsi.length - 1) ⟨0, 0, 0, 0⟩)

/-- `detect_all_divergences(df)`: the bullish result, if any, followed by
the bearish one, if any. -/
def detectAllDivergences (cfg : HumanLikeDivergenceDetector) (df : DF) :
    List DivergenceSignal :=
  (detectBullishDivergence cfg df).toList ++
    (detectBearishDivergence cfg df).toList

/-! ## Support/resistance reversal detector (`rsi_sr_detector.py`) -/

/-- Detector parameters of `RSISupportResistanceDetector.__init__`, with the
constructor's default values. -/
structure RSISupportResistanceDetector where
  rsiSupportZone : ℚ × ℚ := (28, 38)
  rsiResistanceZone : ℚ × ℚ := (62, 72)
  minTouches : ℕ := 3
  priceTrendCandles : ℕ := 7
  minPriceTrend : ℚ := 2
  rsiBounceThreshold : ℚ := 8
  volumeMultiplier : ℚ := 11/10
  maxRsiVariance : ℚ := 5
deriving DecidableEq

/-- A zone touch `{'index': i, 'rsi': r}`. -/
structure Touch where
  index : ℕ
  rsi : ℚ
deriving DecidableEq

/-- `_find_rsi_support_touches(df, lookback=60)`: scan the last `lookback`
rows in order, keeping a row whose RSI lies in the support zone unless it is
within 3 rows of the previously kept touch. -/
def findRsiSupportTouches (cfg : RSISupportResistanceDetector) (df : DF)
    (lookback : ℕ := 60) : List Touch :=
  let idxs := (List.range df.length).drop (df.length - lookback)
  idxs.foldl (fun touches i =>
    let rsi := df.rsi.getD i 0
    if cfg.rsiSupportZone.1 ≤ rsi ∧ rsi ≤ cfg.rsiSupportZone.2 then
      match touches.getLast? with
      | none => touches ++ [⟨i, rsi⟩]
      | some t =>
        if (3 : ℤ) < (i : ℤ) - (t.index : ℤ) then touches ++ [⟨i, rsi⟩]
        else touches
    else touches) []

/-- `_find_rsi_resistance_touches(df, lookback=60)`. -/
def findRsiResistanceTouches (cfg : RSISupportResistanceDetector) (df : DF)
    (lookback : ℕ := 60) : List Touch :=
  let idxs := (List.range df.length).drop (df.length - lookback)
  idxs.foldl (fun touches i =>
    let rsi := df.rsi.getD i 0
    if cfg.rsiResistanceZone.1 ≤ rsi ∧ rsi ≤ cfg.rsiResistanceZone.2 then
      match touches.getLast? with
      | none => touches ++ [⟨i, rsi⟩]
      | some t =>
        if (3 : ℤ) < (i : ℤ) - (t.index : ℤ) then touches ++ [⟨i, rsi⟩]
        else touches
    else touches) []

/-- Trend direction argument of `_check_price_trend`. -/
inductive TrendDirection where
  | down
  | up
deriving DecidableEq

/-- The dictionary `_check_price_trend` returns on success. -/
structure PriceTrendInfo where
  direction : TrendDirection
  percentChange : ℚ
  consistency : ℚ
  startPrice : ℚ
  endPrice : ℚ
deriving DecidableEq

/-- `_check_price_trend(df, direction)`: endpoint percentage change over the
last `price_trend_candles` closes plus a step-consistency vote. -/
def checkPriceTrend (cfg : RSISupportResistanceDetector) (df : DF)
    (direction : TrendDirection) : Option PriceTrendInfo :=
  if df.length < cfg.priceTrendCandles then none
  else
    let recentPrices := df.close.drop (df.close.length - cfg.priceTrendCandles)
    let startPrice := recentPrices.getD 0 0
    let endPrice := recentPrices.getD (recentPrices.length - 1) 0
    let percentChange := (endPrice - startPrice) / startPrice * 100
    match direction with
    | .down =>
      let lowerCount := ((List.range (recentPrices.length - 1)).filter
        (fun i => decide (recentPrices.getD (i + 1) 0 < recentPrices.getD i 0))).length
      let consistency := (lowerCount : ℚ) / ((recentPrices.length : ℚ) - 1)
      if percentChange < -cfg.minPriceTrend ∧ 1/2 < consistency then
        some ⟨.down, percentChange, consistency, startPrice, endPrice⟩
      else none
    | .up =>
      let higherCount := ((List.range (recentPrices.length - 1)).filter
        (fun i => decide (recentPrices.getD i 0 < recentPrices.getD (i + 1) 0))).length
      let consistency := (higherCount : ℚ) / ((recentPrices.length : ℚ) - 1)
      if cfg.minPriceTrend < percentChange ∧ 1/2 < consistency then
        some ⟨.up, percentChange, consistency, startPrice, endPrice⟩
      else none

/-- `_check_volume_surge(df)`: mean volume of the last 3 rows against the
mean of the 17 rows before them (`iloc[-20:-3]`), scaled by
`volume_multiplier`; `False` without a volume column or with fewer than 20
rows. -/
def checkVolumeSurge (cfg : RSISupportResistanceDetector) (df : DF) : Bool :=
  match df.volumeCol with
  | none => false
  | some vol =>
    if df.length < 20 then false
    else
      let recentVolume := mean (vol.drop (vol.length - 3))
      let avgVolume := mean (listSlice (vol.length - 20) (vol.length - 3) vol)
      decide (avgVolume * cfg.volumeMultiplier < recentVolume)

/-- Result of `_check_price_momentum`. -/
inductive Momentum where
  | stronglyDown
  | stronglyUp
  | stabilizing
  | unknown
deriving DecidableEq

/-- `_check_price_momentum(df)`: percentage change across the last 3
closes. -/
def checkPriceMomentum (df : DF) : Momentum :=
  if df.length < 5 then .unknown
  else
    let recentPrices := df.close.drop (df.close.length - 3)
    let priceChange := (recentPrices.getD (recentPrices.length - 1) 0 -
      recentPrices.getD 0 0) / recentPrices.getD 0 0 * 100
    if priceChange < -(3/2) then .stronglyDown
    else if 3/2 < priceChange then .stronglyUp
    else .stabilizing

/-- `_calculate_support_strength(touches, price_change, bounce,
rsi_variance, volume_conf)`: touch quality (30), trend (25), bounce (25),
volume (20), rounded to one decimal and capped at 100. -/
def calculateSupportStrength (touches : List Touch)
    (priceChange bounce rsiVariance : ℚ) (volumeConf : Bool) : ℚ :=
  let touchCount : ℚ := min (touches.length : ℚ) 5
  let variancePenalty := min (rsiVariance * 2) 10
  let touchScore := max 0 (min (touchCount * 6 - variancePenalty) 30)
  let priceScore := min (|priceChange| * 5) 25
  let bounceScore := max 0 (min ((bounce - 8) * 3) 25)
  let volumeScore : ℚ := if volumeConf then 20 else 0
  min (pyRound (touchScore + priceScore + bounceScore + volumeScore) 1) 100

/-- `_calculate_resistance_strength(touches, price_change, rejection,
rsi_variance, volume_conf)`: same shape as the support formula. -/
def calculateResistanceStrength (touches : List Touch)
    (priceChange rejection rsiVariance : ℚ) (volumeConf : Bool) : ℚ :=
  let touchCount : ℚ := min (touches.length : ℚ) 5
  let variancePenalty := min (rsiVariance * 2) 10
  let touchScore := max 0 (min (touchCount * 6 - variancePenalty) 30)
  let priceScore := min (|priceChange| * 5) 25
  let rejectionScore := max 0 (min ((rejection - 8) * 3) 25)
  let volumeScore : ℚ := if volumeConf then 20 else 0
  min (pyRound (touchScore + priceScore + rejectionScore + volumeScore) 1) 100

/-- `_get_strength_label(strength)` (the source's star glyphs are mojibake
in the repository file; the words are kept). -/
def getStrengthLabel (strength : ℚ) : String :=
  if 85 ≤ strength then "Extremely Strong"
  else if 70 ≤ strength then "Very Strong"
  else if 55 ≤ strength then "Strong"
  else "Moderate"

/-- The dictionary returned by `detect_rsi_support_reversal` /
`detect_rsi_resistance_reversal`.  `level` is the source's
`rsi_support_level` / `rsi_resistance_level`, `rsiMove` its `rsi_bounce` /
`rsi_rejection`, and `priceTrendPct` the number formatted into the source's
`price_trend` string; the `explanation` string is omitted. -/
structure ReversalSignal where
  type : String
  direction : String
  currentPrice : ℚ
  currentRsi : ℚ
  level : ℚ
  touches : ℕ
  priceTrendPct : ℚ
  rsiMove : ℚ
  rsiVariance : ℚ
  strength : ℚ
  strengthLabel : String
  timestamp : ℤ
  volumeConfirmed : Bool
  filtersPassed : List String
deriving DecidableEq

/-- Tail of `detect_rsi_support_reversal` after its eight data filters
(source lines 106-138): bounce strength, strength score and the final
strength gate. -/
def supportFinalize (cfg : RSISupportResistanceDetector) (df : DF)
    (supportTouches : List Touch) (minRecentRsi currentRsi currentPrice : ℚ)
    (priceTrend : PriceTrendInfo) (rsiVariance : ℚ)
    (volumeConfirmed : Bool) : Option ReversalSignal :=
  let bounceStrength := currentRsi - minRecentRsi
  let strength := calculateSupportStrength supportTouches
    priceTrend.percentChange bounceStrength rsiVariance volumeConfirmed
  if strength < 50 then none
  else some
    { type := "RSI_SUPPORT_REVERSAL"
      direction := "BULLISH"
      currentPrice := currentPrice
      currentRsi := pyRound currentRsi 2
      level := pyRound minRecentRsi 2
      touches := supportTouches.length
      priceTrendPct := priceTrend.percentChange
      rsiMove := pyRound bounceStrength 2
      rsiVariance := pyRound rsiVariance 2
      strength := strength
      strengthLabel := getStrengthLabel strength
      timestamp := lastD df.timestamp
      volumeConfirmed := true
      filtersPassed := ["support_touches", "rsi_variance", "price_trend",
        "bounce_strength", "volume", "momentum"] }

/-- `detect_rsi_support_reversal(df)`: the nine-filter cascade. -/
def detectRsiSupportReversal (cfg : RSISupportResistanceDetector) (df : DF) :
    Option ReversalSignal :=
  if df.rsiCol.isNone ∨ df.length < 40 then none
  else
    let currentRsi := lastD df.rsi
    let currentPrice := lastD df.close
    let recentRsi := df.rsi.drop (df.rsi.length - 15)
    let minRecentRsi := listMin recentRsi
    if ¬(cfg.rsiSupportZone.1 ≤ minRecentRsi ∧
        minRecentRsi ≤ cfg.rsiSupportZone.2) then none
    else if currentRsi ≤ cfg.rsiSupportZone.1 then none
    else if currentRsi < minRecentRsi + cfg.rsiBounceThreshold then none
    else
      let supportTouches := findRsiSupportTouches cfg df
      if supportTouches.length < cfg.minTouches then none
      else
        let touchRsiValues :=
          (supportTouches.drop (supportTouches.length - 5)).map Touch.rsi
        let rsiVariance := npStd touchRsiValues
        if cfg.maxRsiVariance < rsiVariance then none
        else
          match checkPriceTrend cfg df .down with
          | none => none
          | some priceTrend =>
            if |priceTrend.percentChange| < cfg.minPriceTrend then none
            else
              let volumeConfirmed := checkVolumeSurge cfg df
              if volumeConfirmed = false then none
              else if checkPriceMomentum df = .stronglyDown then none
              else
                supportFinalize cfg df supportTouches minRecentRsi currentRsi
                  currentPrice priceTrend rsiVariance volumeConfirmed

/-- Tail of `detect_rsi_resistance_reversal` after its eight data filters
(source lines 202-234). -/
def resistanceFinalize (cfg : RSISupportResistanceDetector) (df : DF)
    (resistanceTouches : List Touch)
    (maxRecentRsi currentRsi currentPrice : ℚ) (priceTrend : PriceTrendInfo)
    (rsiVariance : ℚ) (volumeConfirmed : Bool) : Option ReversalSignal :=
  let rejectionStrength := maxRecentRsi - currentRsi
  let strength := calculateResistanceStrength resistanceTouches
    priceTrend.percentChange rejectionStrength rsiVariance volumeConfirmed
  if strength < 50 then none
  else some
    { type := "RSI_RESISTANCE_REVERSAL"
      direction := "BEARISH"
      currentPrice := currentPrice
      currentRsi := pyRound currentRsi 2
      level := pyRound maxRecentRsi 2
      touches := resistanceTouches.length
      priceTrendPct := priceTrend.percentChange
      rsiMove := pyRound rejectionStrength 2
      rsiVariance := pyRound rsiVariance 2
      strength := strength
      strengthLabel := getStrengthLabel strength
      timestamp := lastD df.timestamp
      volumeConfirmed := true
      filtersPassed := ["resistance_touches", "rsi_variance", "price_trend",
        "rejection_strength", "volume", "momentum"] }

/-- `detect_rsi_resistance_reversal(df)`. -/
def detectRsiResistanceReversal (cfg : RSISupportResistanceDetector)
    (df : DF) : Option ReversalSignal :=
  if df.rsiCol.isNone ∨ df.length < 40 then none
  else
    let currentRsi := lastD df.rsi
    let currentPrice := lastD df.close
    let recentRsi := df.rsi.drop (df.rsi.length - 15)
    let maxRecentRsi := listMax recentRsi
    if ¬(cfg.rsiResistanceZone.1 ≤ maxRecentRsi ∧
        maxRecentRsi ≤ cfg.rsiResistanceZone.2) then none
    else if cfg.rsiResistanceZone.2 ≤ currentRsi then none
    else if maxRecentRsi - cfg.rsiBounceThreshold < currentRsi then none
    else
      let resistanceTouches := findRsiResistanceTouches cfg df
      if resistanceTouches.length < cfg.minTouches then none
      else
        let touchRsiValues :=
          (resistanceTouches.drop (resistanceTouches.length - 5)).map Touch.rsi
        let rsiVariance := npStd touchRsiValues
        if cfg.maxRsiVariance < rsiVariance then none
        else
          match checkPriceTrend cfg df .up with
          | none => none
          | some priceTrend =>
            if |priceTrend.percentChange| < cfg.minPriceTrend then none
            else
              let volumeConfirmed := checkVolumeSurge cfg df
              if volumeConfirmed = false then none
              else if checkPriceMomentum df = .stronglyUp then none
              else
                resistanceFinalize cfg df resistanceTouches maxRecentRsi
                  currentRsi currentPrice priceTrend rsiVariance
                  volumeConfirmed

/-- `detect_all_reversals(df)`. -/
def detectAllReversals (cfg : RSISupportResistanceDetector) (df : DF) :
    List ReversalSignal :=
  (detectRsiSupportReversal cfg df).toList ++
    (detectRsiResistanceReversal cfg df).toList

/-! ## Trade-outcome simulation (`backtester.py`) -/

/-- Trade direction strings `'LONG'` / `'SHORT'`. -/
inductive Direction where
  | LONG
  | SHORT
deriving DecidableEq

/-- Outcome strings `'WIN'` / `'LOSS'` / `'TIMEOUT'`. -/
inductive Outcome where
  | WIN
  | LOSS
  | TIMEOUT
deriving DecidableEq

/-- One row of the future window passed to `_simulate_trade_outcome` (only
the columns it reads). -/
structure Candle where
  timestamp : ℤ
  high : ℚ
  low : ℚ
  close : ℚ
deriving DecidableEq, Inhabited

/-- The dictionary `_simulate_trade_outcome` returns. -/
structure TradeResult where
  exitPrice : ℚ
  exitTime : Option ℤ
  outcome : Outcome
  profitPct : ℚ
  barsHeld : ℕ
deriving DecidableEq

/-- The row loop of `_simulate_trade_outcome`: first TP/SL hit, checking TP
before SL within each candle; `none` when no level is touched.  `barsHeld`
starts at 1 on the first candle (`idx - future_df.index[0] + 1`). -/
def simulateLoop (entryPrice tpPrice slPrice : ℚ) (direction : Direction) :
    List Candle → ℕ → Option TradeResult
  | [], _ => none
  | row :: rest, barsHeld =>
    match direction with
    | .LONG =>
      if tpPrice ≤ row.high then
        some ⟨tpPrice, some row.timestamp, .WIN,
          (tpPrice - entryPrice) / entryPrice * 100, barsHeld⟩
      else if row.low ≤ slPrice then
        some ⟨slPrice, some row.timestamp, .LOSS,
          (slPrice - entryPrice) / entryPrice * 100, barsHeld⟩
      else simulateLoop entryPrice tpPrice slPrice direction rest (barsHeld + 1)
    | .SHORT =>
      if row.low ≤ tpPrice then
        some ⟨tpPrice, some row.timestamp, .WIN,
          (entryPrice - tpPrice) / entryPrice * 100, barsHeld⟩
      else if slPrice ≤ row.high then
        some ⟨slPrice, some row.timestamp, .LOSS,
          (entryPrice - slPrice) / entryPrice * 100, barsHeld⟩
      else simulateLoop entryPrice tpPrice slPrice direction rest (barsHeld + 1)

/-- `_simulate_trade_outcome(future_df, entry_price, tp_price, sl_price,
direction)`: scan the future candles for a TP or SL touch; otherwise close
at the last close as `TIMEOUT`. -/
def simulateTradeOutcome (futureDf : List Candle)
    (entryPrice tpPrice slPrice : ℚ) (direction : Direction) : TradeResult :=
  if futureDf.isEmpty then ⟨entryPrice, none, .TIMEOUT, 0, 0⟩
  else
    match simulateLoop entryPrice tpPrice slPrice direction futureDf 1 with
    | some result => result
    | none =>
      let lastPrice := (lastD futureDf).close
      let profitPct :=
        match direction with
        | .LONG => (lastPrice - entryPrice) / entryPrice * 100
        | .SHORT => (entryPrice - lastPrice) / entryPrice * 100
      ⟨lastPrice, some (lastD futureDf).timestamp, .TIMEOUT, profitPct,
        futureDf.length⟩

/-- TP/SL levels of `backtest_single_coin` for a LONG (bullish) entry:
`tp = entry·(1 + tp_pct/100)`, `sl = entry·(1 - sl_pct/100)`. -/
def longLevels (entryPrice takeProfitPct stopLossPct : ℚ) : ℚ × ℚ :=
  (entryPrice * (1 + takeProfitPct / 100), entryPrice * (1 - stopLossPct / 100))

/-! ## Specification variant of the prominence window (for §4.2)

The specification describes the prominence window as "a symmetric ±10-bar
window": 10 bars on each side of the candidate.  The source's right-hand
slice `data[i+1:min(len, i+10)]` holds only the 9 bars `i+1 .. i+9`; this
variant follows the specification's words instead (`i+1 .. i+10`), to be
compared against `findProminentPeaks`. -/
def peakRightProminenceSpec (data : List ℚ) (i : ℕ) : ℚ :=
  let rightMin := listMin (listSlice (i + 1) (min data.length (i + 11)) data)
  if 0 < rightMin then (data.getD i 0 - rightMin) / rightMin * 100 else 0

/-- Peak extraction with the specification's symmetric ±10-bar prominence
window on the right side (`peakRightProminenceSpec`); everything else as in
`findProminentPeaks`. -/
def findProminentPeaksSpec (cfg : HumanLikeDivergenceDetector) (df : DF) :
    List Pivot :=
  if df.length < 20 then []
  else
    let data := df.high
    let peaks := argrelGreater data 3
    peaks.filterMap (fun peakIdx =>
      if peakIdx < 5 ∨ data.length - 5 ≤ peakIdx then none
      else
        let leftProminence := peakLeftProminence data peakIdx
        let rightProminence := peakRightProminenceSpec data peakIdx
        if cfg.minPeakProminence ≤ leftProminence ∧
            cfg.minPeakProminence ≤ rightProminence then
          some ⟨peakIdx, data.getD peakIdx 0,
            min leftProminence rightProminence⟩
        else none)

/-! ## Concrete candle series

Small synthetic dataframes used to instantiate the theorems below on
concrete inputs.  `dfBear`/`dfBull` trigger a bearish/bullish divergence
(35 rows, pivots at positions 10 and 20), `dfSup`/`dfRes` trigger a
support/resistance reversal (60 rows), `dfWindow` separates the source's
prominence window from the specification's symmetric one (21 rows), and
`dfEmpty` is the empty series. -/

def defaultDivCfg : HumanLikeDivergenceDetector := {}

def defaultSrCfg : RSISupportResistanceDetector := {}

def dfBear : DF :=
  { timestamp := (List.range 35).map Int.ofNat
    high := List.replicate 10 100 ++ [105] ++ List.replicate 9 100 ++ [110] ++
      List.replicate 14 100
    low := List.replicate 35 95
    close := List.replicate 20 100 ++ [109] ++ List.replicate 14 100
    volumeCol := none
    rsiCol := some (List.replicate 10 50 ++ [70] ++ List.replicate 9 50 ++
      [55] ++ List.replicate 14 50) }

def dfBull : DF :=
  { timestamp := (List.range 35).map Int.ofNat
    high := List.replicate 35 105
    low := List.replicate 10 100 ++ [95] ++ List.replicate 9 100 ++ [90] ++
      List.replicate 14 100
    close := List.replicate 20 100 ++ [91] ++ List.replicate 14 100
    volumeCol := none
    rsiCol := some (List.replicate 10 50 ++ [30] ++ List.replicate 9 50 ++
      [45] ++ List.replicate 14 50) }

def dfSup : DF :=
  { timestamp := (List.range 60).map Int.ofNat
    high := List.replicate 60 1100
    low := List.replicate 60 900
    close := List.replicate 53 1000 ++ [1000, 990, 980, 970, 975, 970, 972]
    volumeCol := some (List.replicate 57 10 ++ [20, 20, 20])
    rsiCol := some (List.replicate 10 50 ++ [30] ++ List.replicate 9 50 ++
      [30] ++ List.replicate 29 50 ++ [30] ++ List.replicate 8 50 ++ [40]) }

def dfRes : DF :=
  { timestamp := (List.range 60).map Int.ofNat
    high := List.replicate 60 1100
    low := List.replicate 60 900
    close := List.replicate 53 1000 ++
      [1000, 1010, 1020, 1030, 1025, 1030, 1028]
    volumeCol := some (List.replicate 57 10 ++ [20, 20, 20])
    rsiCol := some (List.replicate 10 50 ++ [70] ++ List.replicate 9 50 ++
      [70] ++ List.replicate 29 50 ++ [70] ++ List.replicate 8 50 ++ [60]) }

def dfWindow : DF :=
  { timestamp := (List.range 21).map Int.ofNat
    high := List.replicate 7 950 ++ [1020] ++ List.replicate 9 1005 ++
      [500] ++ List.replicate 3 1005
    low := List.replicate 21 900
    close := List.replicate 21 1000
    volumeCol := none
    rsiCol := some (List.replicate 21 50) }

def dfEmpty : DF :=
  { timestamp := []
    high := []
    low := []
    close := []
    volumeCol := none
    rsiCol := none }

/-- Concrete evaluation: `dfBear` triggers a bearish divergence with the
expected pivot pair and quality 98.6. -/
theorem dfBear_detects :
    Option.map (fun s => (s.price1, s.price2, s.rsi1, s.rsi2, s.quality))
      (detectBearishDivergence defaultDivCfg dfBear) =
    some (105, 110, 70, 55, 493/5) ∧
    Option.map (fun s => (s.confirmed, s.idx1, s.idx2))
      (detectBearishDivergence defaultDivCfg dfBear) =
    some (true, 10, 20) := by
  constructor <;> with_unfolding_all decide

/-- Concrete evaluation: `dfBull` triggers a bullish divergence. -/
theorem dfBull_detects :
    Option.map (fun s => (s.price1, s.price2, s.rsi1, s.rsi2, s.quality,
      s.confirmed))
      (detectBullishDivergence defaultDivCfg dfBull) =
    some (95, 90, 30, 45, 100, true) := by
  with_unfolding_all decide

/-- Concrete evaluation: `dfSup` triggers a support reversal of strength
58 off 3 touches, and `dfRes` the mirror resistance reversal. -/
theorem dfSup_dfRes_detect :
    Option.map (fun s => (s.strength, s.touches, s.rsiMove))
      (detectRsiSupportReversal defaultSrCfg dfSup) =
    some (58, 3, 10) ∧
    Option.map (fun s => (s.strength, s.touches, s.rsiMove))
      (detectRsiResistanceReversal defaultSrCfg dfRes) =
    some (58, 3, 10) := by
  constructor <;> with_unfolding_all decide

/-! ## Rounding lemmas -/

theorem floor_eq_intFloor (q : ℚ) : q.floor = ⌊q⌋ := by
  rw [Rat.floor_def', ← Rat.floor_def]

theorem le_roundHalfEven (q : ℚ) : ⌊q⌋ ≤ roundHalfEven q := by
  unfold roundHalfEven
  rw [floor_eq_intFloor]
  split_ifs <;> omega

theorem roundHalfEven_le (q : ℚ) : roundHalfEven q ≤ ⌊q⌋ + 1 := by
  unfold roundHalfEven
  rw [floor_eq_intFloor]
  split_ifs <;> omega

theorem roundHalfEven_mono {q r : ℚ} (h : q ≤ r) :
    roundHalfEven q ≤ roundHalfEven r := by
  have hf : ⌊q⌋ ≤ ⌊r⌋ := Int.floor_le_floor h
  rcases eq_or_lt_of_le hf with heq | hlt
  · unfold roundHalfEven
    rw [floor_eq_intFloor, floor_eq_intFloor, ← heq]
    have hqr : q - ⌊q⌋ ≤ r - ⌊q⌋ := by linarith
    split_ifs <;> first | omega | linarith
  · calc roundHalfEven q ≤ ⌊q⌋ + 1 := roundHalfEven_le q
      _ ≤ ⌊r⌋ := by omega
      _ ≤ roundHalfEven r := le_roundHalfEven r

theorem pyRound_mono {q r : ℚ} (n : ℕ) (h : q ≤ r) :
    pyRound q n ≤ pyRound r n := by
  unfold pyRound
  have h10 : q * 10 ^ n ≤ r * 10 ^ n := by
    have : (0:ℚ) < 10 ^ n := by positivity
    nlinarith
  have hmono := roundHalfEven_mono h10
  have hpos : (0:ℚ) < 10 ^ n := by positivity
  exact (div_le_div_iff_of_pos_right hpos).mpr (by exact_mod_cast hmono)

/-- The final clamp-and-round step of the quality score is monotone in the
pre-rounding total. -/
theorem qualityClamp_mono {a b : ℚ} (h : a ≤ b) :
    min (pyRound a 1) 100 ≤ min (pyRound b 1) 100 :=
  min_le_min (pyRound_mono 1 h) le_rfl

theorem pyRound_nonneg {q : ℚ} (n : ℕ) (h : 0 ≤ q) : 0 ≤ pyRound q n := by
  unfold pyRound
  have hq : (0:ℚ) ≤ q * 10 ^ n := by positivity
  have h0 : (0:ℤ) ≤ ⌊q * 10 ^ n⌋ := Int.floor_nonneg.mpr hq
  have := le_roundHalfEven (q * 10 ^ n)
  have hcast : (0:ℚ) ≤ (roundHalfEven (q * 10 ^ n) : ℚ) := by
    exact_mod_cast le_trans h0 this
  positivity

/-! ## Claim C6: quality-score monotonicity and range -/

/-- C6 (counterexample): as stated over all inputs the claim fails.  The
score is computed from `|Δprice%|`, so it is not monotone in the signed
price-change input (`-10 ≤ 0` yet the score drops from 30 to 0), and a
negative prominence input drives the result below 0 (the clamp is only an
upper clamp at 100). -/
theorem quality_monotone_counterexample :
    ((-10 : ℚ) ≤ 0 ∧
      calculateQualityScore 0 0 0 false <
        calculateQualityScore (-10) 0 0 false) ∧
    calculateQualityScore 0 0 (-10) false < 0 := by
  with_unfolding_all decide

/-- C6 (amended): the quality score is monotone non-decreasing in the
price-change and RSI-change inputs on nonnegative values (the detectors
only supply magnitudes there), monotone in prominence and in the confirmed
flag unconditionally, and its result lies in `[0, 100]` whenever the
prominence input is nonnegative (as every pivot pair supplies, prominences
being gated by `min_peak_prominence > 0`). -/
theorem quality_monotone_bounded :
    (∀ p₁ p₂ r prom c, 0 ≤ p₁ → p₁ ≤ p₂ →
      calculateQualityScore p₁ r prom c ≤ calculateQualityScore p₂ r prom c) ∧
    (∀ p r₁ r₂ prom c, 0 ≤ r₁ → r₁ ≤ r₂ →
      calculateQualityScore p r₁ prom c ≤ calculateQualityScore p r₂ prom c) ∧
    (∀ p r prom₁ prom₂ c, prom₁ ≤ prom₂ →
      calculateQualityScore p r prom₁ c ≤ calculateQualityScore p r prom₂ c) ∧
    (∀ p r prom,
      calculateQualityScore p r prom false ≤
        calculateQualityScore p r prom true) ∧
    (∀ p r prom c, 0 ≤ prom →
      0 ≤ calculateQualityScore p r prom c ∧
        calculateQualityScore p r prom c ≤ 100) := by
  refine ⟨?_, ?_, ?_, ?_, ?_⟩
  · intro p₁ p₂ r prom c h0 h12
    apply qualityClamp_mono
    have : |p₁| ≤ |p₂| := by
      rw [abs_of_nonneg h0, abs_of_nonneg (le_trans h0 h12)]; exact h12
    unfold qualityBase
    have hm : min (|p₁| * 6) 30 ≤ min (|p₂| * 6) 30 :=
      min_le_min (by nlinarith) le_rfl
    linarith
  · intro p r₁ r₂ prom c h0 h12
    apply qualityClamp_mono
    have : |r₁| ≤ |r₂| := by
      rw [abs_of_nonneg h0, abs_of_nonneg (le_trans h0 h12)]; exact h12
    unfold qualityBase
    have hm : min (|r₁| * 3) 30 ≤ min (|r₂| * 3) 30 :=
      min_le_min (by nlinarith) le_rfl
    linarith
  · intro p r prom₁ prom₂ c h12
    apply qualityClamp_mono
    unfold qualityBase
    have hm : min (prom₁ * 4) 20 ≤ min (prom₂ * 4) 20 :=
      min_le_min (by nlinarith) le_rfl
    linarith
  · intro p r prom
    apply qualityClamp_mono
    norm_num
  · intro p r prom c hprom
    constructor
    · unfold calculateQualityScore
      have h1 : (0:ℚ) ≤ min (|p| * 6) 30 := le_min (by positivity) (by norm_num)
      have h2 : (0:ℚ) ≤ min (|r| * 3) 30 := le_min (by positivity) (by norm_num)
      have h3 : (0:ℚ) ≤ min (prom * 4) 20 := le_min (by positivity) (by norm_num)
      have h4 : (0:ℚ) ≤ (if c then (20:ℚ) else 0) := by split <;> norm_num
      have hbase : (0:ℚ) ≤ qualityBase p r prom + (if c then 20 else 0) := by
        unfold qualityBase; linarith
      exact le_min (pyRound_nonneg 1 hbase) (by norm_num)
    · exact min_le_right _ _

/-- C6 (witness): the amended theorem applied at concrete inputs. -/
theorem quality_monotone_bounded_witness :
    calculateQualityScore 1 0 0 false ≤ calculateQualityScore 2 0 0 false ∧
    calculateQualityScore 0 1 0 false ≤ calculateQualityScore 0 2 0 false ∧
    calculateQualityScore 0 0 1 false ≤ calculateQualityScore 0 0 2 false ∧
    calculateQualityScore 0 0 0 false ≤ calculateQualityScore 0 0 0 true ∧
    (0 ≤ calculateQualityScore 3 4 5 true ∧
      calculateQualityScore 3 4 5 true ≤ 100) :=
  ⟨quality_monotone_bounded.1 1 2 0 0 false (by norm_num) (by norm_num),
    quality_monotone_bounded.2.1 0 1 2 0 false (by norm_num) (by norm_num),
    quality_monotone_bounded.2.2.1 0 0 1 2 false (by norm_num),
    quality_monotone_bounded.2.2.2.1 0 0 0,
    quality_monotone_bounded.2.2.2.2 3 4 5 true (by norm_num)⟩

/-! ## Stage lemmas for the divergence detectors -/

/-- Facts carried by a successful `bearishFromPeaks`: the alignment
validation passed, the signal's fields come from the pivot pair, the
quality gate held, and a failed confirmation is only tolerated when
confirmation is not required. -/
theorem bearishFromPeaks_some {cfg : HumanLikeDivergenceDetector} {df : DF}
    {p1 p2 : PeakRsi} {s : DivergenceSignal}
    (h : bearishFromPeaks cfg df p1 p2 = some s) :
    (validateDivergenceAlignment cfg p1 p2 .BEARISH).1 = true ∧
    s.price1 = p1.price ∧ s.price2 = p2.price ∧
    s.rsi1 = p1.rsi ∧ s.rsi2 = p2.rsi ∧ s.idx2 = p2.index ∧
    s.confirmed = (checkPriceActionConfirms cfg df .BEARISH p2.index).1 ∧
    s.quality = calculateQualityScore ((p2.price - p1.price) / p1.price * 100)
      (p1.rsi - p2.rsi) (min p1.prominence p2.prominence)
      (checkPriceActionConfirms cfg df .BEARISH p2.index).1 ∧
    ¬s.quality < 60 ∧
    ((checkPriceActionConfirms cfg df .BEARISH p2.index).1 = false →
      cfg.requireConfirmation = false) := by
  simp only [bearishFromPeaks] at h
  split at h
  · exact absurd h (by simp)
  · split at h
    · exact absurd h (by simp)
    · split at h
      · exact absurd h (by simp)
      · rename_i hv hconf hq
        obtain rfl := (Option.some.inj h).symm
        refine ⟨by simpa using hv, rfl, rfl, rfl, rfl, rfl, rfl, rfl, hq, ?_⟩
        intro hfalse
        by_contra hreq
        exact hconf ⟨hfalse, eq_true_of_ne_false hreq⟩

/-- Facts carried by a successful `bullishFromTroughs`; the direction
pre-check also holds. -/
theorem bullishFromTroughs_some {cfg : HumanLikeDivergenceDetector} {df : DF}
    {t1 t2 : PeakRsi} {s : DivergenceSignal}
    (h : bullishFromTroughs cfg df t1 t2 = some s) :
    (t2.price < t1.price ∧ t1.rsi < t2.rsi) ∧
    s.price1 = t1.price ∧ s.price2 = t2.price ∧
    s.rsi1 = t1.rsi ∧ s.rsi2 = t2.rsi ∧ s.idx2 = t2.index ∧
    s.confirmed = (checkPriceActionConfirms cfg df .BULLISH t2.index).1 ∧
    s.quality = calculateQualityScore
      |(t1.price - t2.price) / t1.price * 100| |t2.rsi - t1.rsi|
      (min t1.prominence t2.prominence)
      (checkPriceActionConfirms cfg df .BULLISH t2.index).1 ∧
    ¬s.quality < 60 ∧
    ((checkPriceActionConfirms cfg df .BULLISH t2.index).1 = false →
      cfg.requireConfirmation = false) := by
  simp only [bullishFromTroughs] at h
  split at h
  · exact absurd h (by simp)
  · split at h
    · exact absurd h (by simp)
    · split at h
      · exact absurd h (by simp)
      · split at h
        · exact absurd h (by simp)
        · split at h
          · exact absurd h (by simp)
          · rename_i hsign hrsi hv hconf hq
            obtain rfl := (Option.some.inj h).symm
            refine ⟨not_not.mp hsign, rfl, rfl, rfl, rfl, rfl, rfl, rfl, hq, ?_⟩
            intro hfalse
            by_contra hreq
            exact hconf ⟨hfalse, Bool.ne_false_iff.mp hreq⟩

/-- A successful `detect_bearish_divergence` factors through
`bearishFromPeaks` on some pivot pair. -/
theorem detectBearish_factors {cfg : HumanLikeDivergenceDetector} {df : DF}
    {s : DivergenceSignal} (h : detectBearishDivergence cfg df = some s) :
    ∃ p1 p2, bearishFromPeaks cfg df p1 p2 = some s := by
  simp only [detectBearishDivergence] at h
  split at h
  · exact absurd h (by simp)
  · split at h
    · exact absurd h (by simp)
    · split at h
      · exact absurd h (by simp)
      · exact ⟨_, _, h⟩

/-- A successful `detect_bullish_divergence` factors through
`bullishFromTroughs` on some trough pair. -/
theorem detectBullish_factors {cfg : HumanLikeDivergenceDetector} {df : DF}
    {s : DivergenceSignal} (h : detectBullishDivergence cfg df = some s) :
    ∃ t1 t2, bullishFromTroughs cfg df t1 t2 = some s := by
  simp only [detectBullishDivergence] at h
  split at h
  · exact absurd h (by simp)
  · split at h
    · exact absurd h (by simp)
    · split at h
      · exact absurd h (by simp)
      · exact ⟨_, _, h⟩

/-- A passing bearish alignment validation forces the bearish sign
conditions. -/
theorem validate_bearish_signs {cfg : HumanLikeDivergenceDetector}
    {p1 p2 : PeakRsi}
    (h : (validateDivergenceAlignment cfg p1 p2 .BEARISH).1 = true) :
    p1.price < p2.price ∧ p2.rsi < p1.rsi := by
  by_cases hb : p1.price < p2.price ∧ p2.rsi < p1.rsi
  · exact hb
  · exfalso
    simp only [validateDivergenceAlignment] at h
    rw [if_neg hb] at h
    split_ifs at h

/-- A passing bullish alignment validation forces the bullish sign
conditions. -/
theorem validate_bullish_signs {cfg : HumanLikeDivergenceDetector}
    {t1 t2 : PeakRsi}
    (h : (validateDivergenceAlignment cfg t1 t2 .BULLISH).1 = true) :
    t2.price < t1.price ∧ t1.rsi < t2.rsi := by
  by_cases hb : t2.price < t1.price ∧ t1.rsi < t2.rsi
  · exact hb
  · exfalso
    simp only [validateDivergenceAlignment] at h
    rw [if_neg hb] at h
    split_ifs at h

/-!  ## Claim C1: directional sign conditions -/

/-- C1: a reported BEARISH divergence always has `price2 > price1` and
`rsi2 < rsi1`, a reported BULLISH one `price2 < price1` and `rsi2 > rsi1`,
and a pivot pair violating the sign conditions never produces a signal
(the post-validation stage returns `None` on it). -/
theorem divergence_sign_conditions :
    (∀ cfg df s, detectBearishDivergence cfg df = some s →
      s.price1 < s.price2 ∧ s.rsi2 < s.rsi1) ∧
    (∀ cfg df s, detectBullishDivergence cfg df = some s →
      s.price2 < s.price1 ∧ s.rsi1 < s.rsi2) ∧
    (∀ cfg df p1 p2, ¬(p1.price < p2.price ∧ p2.rsi < p1.rsi) →
      bearishFromPeaks cfg df p1 p2 = none) ∧
    (∀ cfg df t1 t2, ¬(t2.price < t1.price ∧ t1.rsi < t2.rsi) →
      bullishFromTroughs cfg df t1 t2 = none) := by
  refine ⟨?_, ?_, ?_, ?_⟩
  · intro cfg df s h
    obtain ⟨p1, p2, hf⟩ := detectBearish_factors h
    obtain ⟨hv, hp1, hp2, hr1, hr2, -⟩ := bearishFromPeaks_some hf
    obtain ⟨hprice, hrsi⟩ := validate_bearish_signs hv
    rw [hp1, hp2, hr1, hr2]
    exact ⟨hprice, hrsi⟩
  · intro cfg df s h
    obtain ⟨t1, t2, hf⟩ := detectBullish_factors h
    obtain ⟨⟨hprice, hrsi⟩, hp1, hp2, hr1, hr2, -⟩ := bullishFromTroughs_some hf
    rw [hp1, hp2, hr1, hr2]
    exact ⟨hprice, hrsi⟩
  · intro cfg df p1 p2 hsign
    by_cases hv : (validateDivergenceAlignment cfg p1 p2 .BEARISH).1 = true
    · exact absurd (validate_bearish_signs hv) hsign
    · have hv2 : (validateDivergenceAlignment cfg p1 p2 .BEARISH).1 = false :=
        Bool.not_eq_true _ ▸ Bool.eq_false_iff.mpr (fun hc => hv hc)
      simp [bearishFromPeaks, hv2]
  · intro cfg df t1 t2 hsign
    simp [bullishFromTroughs, hsign]

/-- The all-zero placeholder signal used to read fields off an optional
detection result in concrete instantiations. -/
def noSignal : DivergenceSignal :=
  ⟨.BEARISH, 0, 0, 0, 0, 0, 0, 0, 0, 0, 0, 0, 0, "", false, ""⟩

/-- The all-zero placeholder reversal signal. -/
def noReversal : ReversalSignal :=
  ⟨"", "", 0, 0, 0, 0, 0, 0, 0, 0, "", 0, false, []⟩

/-- C1 (witness): the theorem applied to the concrete series `dfBear` and
`dfBull` (which produce signals) and to a sign-violating degenerate pivot
pair (which produces none). -/
theorem divergence_sign_conditions_witness :
    (((detectBearishDivergence defaultDivCfg dfBear).getD noSignal).price1 <
        ((detectBearishDivergence defaultDivCfg dfBear).getD noSignal).price2 ∧
      ((detectBearishDivergence defaultDivCfg dfBear).getD noSignal).rsi2 <
        ((detectBearishDivergence defaultDivCfg dfBear).getD noSignal).rsi1) ∧
    (((detectBullishDivergence defaultDivCfg dfBull).getD noSignal).price2 <
        ((detectBullishDivergence defaultDivCfg dfBull).getD noSignal).price1 ∧
      ((detectBullishDivergence defaultDivCfg dfBull).getD noSignal).rsi1 <
        ((detectBullishDivergence defaultDivCfg dfBull).getD noSignal).rsi2) ∧
    bearishFromPeaks defaultDivCfg dfEmpty ⟨0, 0, 0, 0⟩ ⟨0, 0, 0, 0⟩ = none ∧
    bullishFromTroughs defaultDivCfg dfEmpty ⟨0, 0, 0, 0⟩ ⟨0, 0, 0, 0⟩ =
      none := by
  refine ⟨?_, ?_, ?_, ?_⟩
  · exact divergence_sign_conditions.1 defaultDivCfg dfBear _
      (by with_unfolding_all rfl)
  · exact divergence_sign_conditions.2.1 defaultDivCfg dfBull _
      (by with_unfolding_all rfl)
  · exact divergence_sign_conditions.2.2.1 defaultDivCfg dfEmpty _ _
      (by with_unfolding_all decide)
  · exact divergence_sign_conditions.2.2.2 defaultDivCfg dfEmpty _ _
      (by with_unfolding_all decide)

/-! ## Stage lemmas for the support/resistance detectors -/

/-- A successful `supportFinalize` passed the strength gate, and the
signal's strength is the computed score. -/
theorem supportFinalize_some {cfg : RSISupportResistanceDetector} {df : DF}
    {touches : List Touch} {minR curR curP : ℚ} {trend : PriceTrendInfo}
    {var : ℚ} {vc : Bool} {s : ReversalSignal}
    (h : supportFinalize cfg df touches minR curR curP trend var vc = some s) :
    ¬s.strength < 50 := by
  simp only [supportFinalize] at h
  split at h
  · exact absurd h (by simp)
  · rename_i hq
    obtain rfl := (Option.some.inj h).symm
    exact hq

/-- A successful `resistanceFinalize` passed the strength gate. -/
theorem resistanceFinalize_some {cfg : RSISupportResistanceDetector}
    {df : DF} {touches : List Touch} {maxR curR curP : ℚ}
    {trend : PriceTrendInfo} {var : ℚ} {vc : Bool} {s : ReversalSignal}
    (h : resistanceFinalize cfg df touches maxR curR curP trend var vc =
      some s) :
    ¬s.strength < 50 := by
  simp only [resistanceFinalize] at h
  split at h
  · exact absurd h (by simp)
  · rename_i hq
    obtain rfl := (Option.some.inj h).symm
    exact hq

/-- A successful `detect_rsi_support_reversal` passed the volume-surge gate
and factors through `supportFinalize`. -/
theorem detectSupport_factors {cfg : RSISupportResistanceDetector} {df : DF}
    {s : ReversalSignal} (h : detectRsiSupportReversal cfg df = some s) :
    checkVolumeSurge cfg df = true ∧
    ∃ touches minR curR curP trend var,
      supportFinalize cfg df touches minR curR curP trend var
        (checkVolumeSurge cfg df) = some s := by
  simp only [detectRsiSupportReversal] at h
  repeat' split at h
  all_goals try exact Option.noConfusion h
  refine ⟨Bool.ne_false_iff.mp (by assumption), ?_⟩
  exact ⟨_, _, _, _, _, _, h⟩

/-- A successful `detect_rsi_resistance_reversal` passed the volume-surge
gate and factors through `resistanceFinalize`. -/
theorem detectResistance_factors {cfg : RSISupportResistanceDetector}
    {df : DF} {s : ReversalSignal}
    (h : detectRsiResistanceReversal cfg df = some s) :
    checkVolumeSurge cfg df = true ∧
    ∃ touches maxR curR curP trend var,
      resistanceFinalize cfg df touches maxR curR curP trend var
        (checkVolumeSurge cfg df) = some s := by
  simp only [detectRsiResistanceReversal] at h
  repeat' split at h
  all_goals try exact Option.noConfusion h
  refine ⟨Bool.ne_false_iff.mp (by assumption), ?_⟩
  exact ⟨_, _, _, _, _, _, h⟩

/-! ## Claim C2: score floors are exclusive -/

/-- C2: no divergence signal is emitted with quality below 60 and no
reversal signal with strength below 50, and both floors are exclusive: the
post-validation stages accept a computed score of exactly 60 (resp. 50) and
reject 59.9 (resp. 49.9), shown on concrete pivot pairs and filter data
whose computed scores land exactly on those values. -/
theorem quality_strength_floor :
    (∀ cfg df s, detectBearishDivergence cfg df = some s → 60 ≤ s.quality) ∧
    (∀ cfg df s, detectBullishDivergence cfg df = some s → 60 ≤ s.quality) ∧
    (∀ cfg df s, detectRsiSupportReversal cfg df = some s →
      50 ≤ s.strength) ∧
    (∀ cfg df s, detectRsiResistanceReversal cfg df = some s →
      50 ≤ s.strength) ∧
    Option.map DivergenceSignal.quality
      (bearishFromPeaks defaultDivCfg dfBear ⟨10, 200, 70, 5/2⟩
        ⟨20, 205, 65, 5/2⟩) = some 60 ∧
    (calculateQualityScore ((6149 - 6000) / 6000 * 100) (70 - 65) (5/2) true =
        599/10 ∧
      bearishFromPeaks defaultDivCfg dfBear ⟨10, 6000, 70, 5/2⟩
        ⟨20, 6149, 65, 5/2⟩ = none) ∧
    Option.map ReversalSignal.strength
      (supportFinalize defaultSrCfg dfSup [⟨10, 30⟩, ⟨20, 30⟩, ⟨50, 30⟩] 30
        (116/3) 972 ⟨.down, -2, 2/3, 1000, 980⟩ 0 true) = some 50 ∧
    (calculateSupportStrength [⟨10, 30⟩, ⟨20, 30⟩, ⟨50, 30⟩] (-99/50)
        (116/3 - 30) 0 true = 499/10 ∧
      supportFinalize defaultSrCfg dfSup [⟨10, 30⟩, ⟨20, 30⟩, ⟨50, 30⟩] 30
        (116/3) 972 ⟨.down, -99/50, 2/3, 1000, 980⟩ 0 true = none) := by
  refine ⟨?_, ?_, ?_, ?_, ?_, ?_, ?_, ?_⟩
  · intro cfg df s h
    obtain ⟨p1, p2, hf⟩ := detectBearish_factors h
    obtain ⟨-, -, -, -, -, -, -, -, hq, -⟩ := bearishFromPeaks_some hf
    exact not_lt.mp hq
  · intro cfg df s h
    obtain ⟨t1, t2, hf⟩ := detectBullish_factors h
    obtain ⟨-, -, -, -, -, -, -, -, hq, -⟩ := bullishFromTroughs_some hf
    exact not_lt.mp hq
  · intro cfg df s h
    obtain ⟨-, _, _, _, _, _, _, hf⟩ := detectSupport_factors h
    exact not_lt.mp (supportFinalize_some hf)
  · intro cfg df s h
    obtain ⟨-, _, _, _, _, _, _, hf⟩ := detectResistance_factors h
    exact not_lt.mp (resistanceFinalize_some hf)
  · with_unfolding_all decide
  · with_unfolding_all decide
  · with_unfolding_all decide
  · with_unfolding_all decide

/-- C2 (witness): the floor theorem applied to the concrete series. -/
theorem quality_strength_floor_witness :
    60 ≤ ((detectBearishDivergence defaultDivCfg dfBear).getD
      noSignal).quality ∧
    60 ≤ ((detectBullishDivergence defaultDivCfg dfBull).getD
      noSignal).quality ∧
    50 ≤ ((detectRsiSupportReversal defaultSrCfg dfSup).getD
      noReversal).strength ∧
    50 ≤ ((detectRsiResistanceReversal defaultSrCfg dfRes).getD
      noReversal).strength :=
  ⟨quality_strength_floor.1 defaultDivCfg dfBear _ (by with_unfolding_all rfl),
    quality_strength_floor.2.1 defaultDivCfg dfBull _
      (by with_unfolding_all rfl),
    quality_strength_floor.2.2.1 defaultSrCfg dfSup _
      (by with_unfolding_all rfl),
    quality_strength_floor.2.2.2.1 defaultSrCfg dfRes _
      (by with_unfolding_all rfl)⟩

/-! ## Claim C3: the forward confirmation rule -/

/-- A passing bearish confirmation under `require_confirmation` means at
least 3 candles followed the pivot and at least 2 of the 3 following closes
are strictly below the close at the pivot index. -/
theorem confirms_bearish_spec {cfg : HumanLikeDivergenceDetector} {df : DF}
    {i : ℕ} (hreq : cfg.requireConfirmation = true)
    (h : (checkPriceActionConfirms cfg df .BEARISH i).1 = true) :
    i + 3 < df.length ∧
    2 ≤ ((listSlice (i + 1) (i + 4) df.close).filter
      (fun p => decide (p < df.close.getD i 0))).length := by
  simp only [checkPriceActionConfirms] at h
  split at h
  · split at h
    · exact absurd h (by simp)
    · split at h
      · exact absurd h (by simp)
      · rename_i hlen hfall
        exact ⟨Nat.not_le.mp hlen, Nat.not_lt.mp hfall⟩
  · rename_i hnr
    exact absurd hreq hnr

/-- Mirror of `confirms_bearish_spec` for bullish confirmations. -/
theorem confirms_bullish_spec {cfg : HumanLikeDivergenceDetector} {df : DF}
    {i : ℕ} (hreq : cfg.requireConfirmation = true)
    (h : (checkPriceActionConfirms cfg df .BULLISH i).1 = true) :
    i + 3 < df.length ∧
    2 ≤ ((listSlice (i + 1) (i + 4) df.close).filter
      (fun p => decide (df.close.getD i 0 < p))).length := by
  simp only [checkPriceActionConfirms] at h
  split at h
  · split at h
    · exact absurd h (by simp)
    · split at h
      · exact absurd h (by simp)
      · rename_i hlen hrise
        exact ⟨Nat.not_le.mp hlen, Nat.not_lt.mp hrise⟩
  · rename_i hnr
    exact absurd hreq hnr

/-- C3: with `require_confirmation` enabled, a divergence signal implies at
least 2 of the 3 closes after the second pivot index are strictly below
(bearish) / above (bullish) that pivot index's close — and implies 3 such
closes exist; with fewer than 3 candles after the pivot the confirmation
check itself fails (it does not report an unknown state). -/
theorem confirmation_three_candle_rule :
    (∀ cfg df s, cfg.requireConfirmation = true →
      detectBearishDivergence cfg df = some s →
      s.idx2 + 3 < df.length ∧
      2 ≤ ((listSlice (s.idx2 + 1) (s.idx2 + 4) df.close).filter
        (fun p => decide (p < df.close.getD s.idx2 0))).length) ∧
    (∀ cfg df s, cfg.requireConfirmation = true →
      detectBullishDivergence cfg df = some s →
      s.idx2 + 3 < df.length ∧
      2 ≤ ((listSlice (s.idx2 + 1) (s.idx2 + 4) df.close).filter
        (fun p => decide (df.close.getD s.idx2 0 < p))).length) ∧
    (∀ cfg df d i, cfg.requireConfirmation = true → df.length ≤ i + 3 →
      (checkPriceActionConfirms cfg df d i).1 = false) := by
  refine ⟨?_, ?_, ?_⟩
  · intro cfg df s hreq h
    obtain ⟨p1, p2, hf⟩ := detectBearish_factors h
    obtain ⟨-, -, -, -, -, hidx, -, -, -, hc⟩ := bearishFromPeaks_some hf
    have hconf : (checkPriceActionConfirms cfg df .BEARISH p2.index).1 =
        true := by
      by_contra hcf
      have := hc (Bool.not_eq_true _ ▸ Bool.eq_false_iff.mpr
        (fun hx => hcf hx))
      rw [hreq] at this
      exact Bool.true_eq_false.mp this
    rw [hidx]
    exact confirms_bearish_spec hreq hconf
  · intro cfg df s hreq h
    obtain ⟨t1, t2, hf⟩ := detectBullish_factors h
    obtain ⟨-, -, -, -, -, hidx, -, -, -, hc⟩ := bullishFromTroughs_some hf
    have hconf : (checkPriceActionConfirms cfg df .BULLISH t2.index).1 =
        true := by
      by_contra hcf
      have := hc (Bool.not_eq_true _ ▸ Bool.eq_false_iff.mpr
        (fun hx => hcf hx))
      rw [hreq] at this
      exact Bool.true_eq_false.mp this
    rw [hidx]
    exact confirms_bullish_spec hreq hconf
  · intro cfg df d i hreq hlen
    simp [checkPriceActionConfirms, hreq, hlen]

/-- C3 (witness): the rule applied to the concrete series `dfBear` and
`dfBull`, and the too-short case applied to the empty series. -/
theorem confirmation_three_candle_rule_witness :
    (((detectBearishDivergence defaultDivCfg dfBear).getD noSignal).idx2 + 3 <
        dfBear.length ∧
      2 ≤ ((listSlice
        (((detectBearishDivergence defaultDivCfg dfBear).getD noSignal).idx2 + 1)
        (((detectBearishDivergence defaultDivCfg dfBear).getD noSignal).idx2 + 4)
        dfBear.close).filter (fun p => decide (p < dfBear.close.getD
          ((detectBearishDivergence defaultDivCfg dfBear).getD
            noSignal).idx2 0))).length) ∧
    (((detectBullishDivergence defaultDivCfg dfBull).getD noSignal).idx2 + 3 <
        dfBull.length ∧
      2 ≤ ((listSlice
        (((detectBullishDivergence defaultDivCfg dfBull).getD noSignal).idx2 + 1)
        (((detectBullishDivergence defaultDivCfg dfBull).getD noSignal).idx2 + 4)
        dfBull.close).filter (fun p => decide (dfBull.close.getD
          ((detectBullishDivergence defaultDivCfg dfBull).getD
            noSignal).idx2 0 < p))).length) ∧
    (checkPriceActionConfirms defaultDivCfg dfEmpty .BEARISH 0).1 = false :=
  ⟨confirmation_three_candle_rule.1 defaultDivCfg dfBear _ rfl
      (by with_unfolding_all rfl),
    confirmation_three_candle_rule.2.1 defaultDivCfg dfBull _ rfl
      (by with_unfolding_all rfl),
    confirmation_three_candle_rule.2.2 defaultDivCfg dfEmpty .BEARISH 0 rfl
      (by decide)⟩

/-! ## Claim C10: detector without confirmation -/

/-- A `HumanLikeDivergenceDetector` constructed with
`require_confirmation=False`. -/
def noConfCfg : HumanLikeDivergenceDetector :=
  { requireConfirmation := false }

/-- C10: with `require_confirmation=False` the forward price-action check
is skipped and unconditionally reports confirmed, so every emitted signal
has `confirmed = True` and its quality is computed with the full 20-point
confirmation bonus added before rounding and clamping. -/
theorem no_confirmation_full_bonus :
    ∀ cfg : HumanLikeDivergenceDetector, cfg.requireConfirmation = false →
    (∀ df d i, checkPriceActionConfirms cfg df d i = (true, "Confirmed")) ∧
    (∀ df s, detectBearishDivergence cfg df = some s →
      s.confirmed = true ∧
      ∃ p r prom, s.quality = min (pyRound (qualityBase p r prom + 20) 1) 100) ∧
    (∀ df s, detectBullishDivergence cfg df = some s →
      s.confirmed = true ∧
      ∃ p r prom, s.quality =
        min (pyRound (qualityBase p r prom + 20) 1) 100) := by
  intro cfg hreq
  have hcheck : ∀ df d i, checkPriceActionConfirms cfg df d i =
      (true, "Confirmed") := by
    intro df d i
    simp [checkPriceActionConfirms, hreq]
  refine ⟨hcheck, ?_, ?_⟩
  · intro df s h
    obtain ⟨p1, p2, hf⟩ := detectBearish_factors h
    obtain ⟨-, -, -, -, -, -, hcf, hq, -, -⟩ := bearishFromPeaks_some hf
    have h1 : (checkPriceActionConfirms cfg df .BEARISH p2.index).1 = true := by
      rw [hcheck]
    refine ⟨by rw [hcf, h1], (p2.price - p1.price) / p1.price * 100,
      p1.rsi - p2.rsi, min p1.prominence p2.prominence, ?_⟩
    rw [hq, h1]
    simp [calculateQualityScore]
  · intro df s h
    obtain ⟨t1, t2, hf⟩ := detectBullish_factors h
    obtain ⟨-, -, -, -, -, -, hcf, hq, -, -⟩ := bullishFromTroughs_some hf
    have h1 : (checkPriceActionConfirms cfg df .BULLISH t2.index).1 = true := by
      rw [hcheck]
    refine ⟨by rw [hcf, h1], |(t1.price - t2.price) / t1.price * 100|,
      |t2.rsi - t1.rsi|, min t1.prominence t2.prominence, ?_⟩
    rw [hq, h1]
    simp [calculateQualityScore]

/-- C10 (witness): the theorem applied to the no-confirmation detector on
the concrete series. -/
theorem no_confirmation_full_bonus_witness :
    checkPriceActionConfirms noConfCfg dfBear .BEARISH 0 =
      (true, "Confirmed") ∧
    (((detectBearishDivergence noConfCfg dfBear).getD noSignal).confirmed =
        true ∧
      ∃ p r prom,
        ((detectBearishDivergence noConfCfg dfBear).getD noSignal).quality =
          min (pyRound (qualityBase p r prom + 20) 1) 100) ∧
    (((detectBullishDivergence noConfCfg dfBull).getD noSignal).confirmed =
        true ∧
      ∃ p r prom,
        ((detectBullishDivergence noConfCfg dfBull).getD noSignal).quality =
          min (pyRound (qualityBase p r prom + 20) 1) 100) := by
  obtain ⟨h1, h2, h3⟩ := no_confirmation_full_bonus noConfCfg rfl
  exact ⟨h1 dfBear .BEARISH 0,
    h2 dfBear _ (by with_unfolding_all rfl),
    h3 dfBull _ (by with_unfolding_all rfl)⟩

/-! ## Pivot membership lemmas (for C4 and C5) -/

/-- Everything a reported peak pivot satisfies: edge bounds, the
`argrelextrema` comparison, its raw value, and the two-sided prominence
gate with the recorded prominence. -/
theorem findProminentPeaks_mem {cfg : HumanLikeDivergenceDetector} {df : DF}
    {p : Pivot} (h : p ∈ findProminentPeaks cfg df) :
    5 ≤ p.index ∧ p.index < df.high.length - 5 ∧
    relGreaterAt df.high 3 p.index = true ∧
    p.value = df.high.getD p.index 0 ∧
    cfg.minPeakProminence ≤ peakLeftProminence df.high p.index ∧
    cfg.minPeakProminence ≤ peakRightProminence df.high p.index ∧
    p.prominence = min (peakLeftProminence df.high p.index)
      (peakRightProminence df.high p.index) := by
  simp only [findProminentPeaks] at h
  split at h
  · exact absurd h (List.not_mem_nil p)
  · rw [List.mem_filterMap] at h
    obtain ⟨i, hi, hf⟩ := h
    rw [argrelGreater, List.mem_filter] at hi
    obtain ⟨-, hrel⟩ := hi
    split at hf
    · exact Option.noConfusion hf
    · split at hf
      · rename_i hedge hprom
        obtain rfl := (Option.some.inj hf).symm
        have hb1 : 5 ≤ i := by omega
        have hb2 : i < df.high.length - 5 := by omega
        exact ⟨hb1, hb2, hrel, rfl, hprom.1, hprom.2, rfl⟩
      · exact Option.noConfusion hf

/-- Mirror of `findProminentPeaks_mem` for troughs. -/
theorem findProminentTroughs_mem {cfg : HumanLikeDivergenceDetector}
    {df : DF} {p : Pivot} (h : p ∈ findProminentTroughs cfg df) :
    5 ≤ p.index ∧ p.index < df.low.length - 5 ∧
    relLessAt df.low 3 p.index = true ∧
    p.value = df.low.getD p.index 0 ∧
    cfg.minPeakProminence ≤ troughLeftProminence df.low p.index ∧
    cfg.minPeakProminence ≤ troughRightProminence df.low p.index ∧
    p.prominence = min (troughLeftProminence df.low p.index)
      (troughRightProminence df.low p.index) := by
  simp only [findProminentTroughs] at h
  split at h
  · exact absurd h (List.not_mem_nil p)
  · rw [List.mem_filterMap] at h
    obtain ⟨i, hi, hf⟩ := h
    rw [argrelLess, List.mem_filter] at hi
    obtain ⟨-, hrel⟩ := hi
    split at hf
    · exact Option.noConfusion hf
    · split at hf
      · rename_i hedge hprom
        obtain rfl := (Option.some.inj hf).symm
        have hb1 : 5 ≤ i := by omega
        have hb2 : i < df.low.length - 5 := by omega
        exact ⟨hb1, hb2, hrel, rfl, hprom.1, hprom.2, rfl⟩
      · exact Option.noConfusion hf

/-! ## Claim C4: the prominence windows -/

/-- C4 (counterexample): the claimed symmetric ±10-bar window disagrees
with the source.  On `dfWindow` the candidate at index 7 has its 10th right
bar (index 17) far below it: under the claimed symmetric window it is a
prominent peak, but the source's right window stops at index 16 (`i+10`
exclusive) and rejects it, so the extractor returns no pivot at all. -/
theorem prominence_window_counterexample :
    findProminentPeaks defaultDivCfg dfWindow = [] ∧
    findProminentPeaksSpec defaultDivCfg dfWindow = [⟨7, 1020, 140/19⟩] := by
  with_unfolding_all decide

/-- C4 (amended): each reported pivot's prominence is computed against the
minimum (peaks) / maximum (troughs) of the 10 bars before it and of the 9
bars after it (the right slice end `i+10` is exclusive); the pivot is kept
only if both sides reach `min_peak_prominence`, and the recorded prominence
is the smaller of the two sides. -/
theorem prominence_window_rule :
    (∀ cfg df p, p ∈ findProminentPeaks cfg df →
      cfg.minPeakProminence ≤ peakLeftProminence df.high p.index ∧
      cfg.minPeakProminence ≤ peakRightProminence df.high p.index ∧
      p.prominence = min (peakLeftProminence df.high p.index)
        (peakRightProminence df.high p.index)) ∧
    (∀ cfg df p, p ∈ findProminentTroughs cfg df →
      cfg.minPeakProminence ≤ troughLeftProminence df.low p.index ∧
      cfg.minPeakProminence ≤ troughRightProminence df.low p.index ∧
      p.prominence = min (troughLeftProminence df.low p.index)
        (troughRightProminence df.low p.index)) := by
  constructor
  · intro cfg df p h
    obtain ⟨-, -, -, -, h1, h2, h3⟩ := findProminentPeaks_mem h
    exact ⟨h1, h2, h3⟩
  · intro cfg df p h
    obtain ⟨-, -, -, -, h1, h2, h3⟩ := findProminentTroughs_mem h
    exact ⟨h1, h2, h3⟩

/-- C4 (witness): the amended rule applied to the concrete pivots of
`dfBear` (peak at index 10) and `dfBull` (trough at index 10). -/
theorem prominence_window_rule_witness :
    ((2 : ℚ) ≤ peakLeftProminence dfBear.high 10 ∧
      (2 : ℚ) ≤ peakRightProminence dfBear.high 10 ∧
      (5 : ℚ) = min (peakLeftProminence dfBear.high 10)
        (peakRightProminence dfBear.high 10)) ∧
    ((2 : ℚ) ≤ troughLeftProminence dfBull.low 10 ∧
      (2 : ℚ) ≤ troughRightProminence dfBull.low 10 ∧
      (100/19 : ℚ) = min (troughLeftProminence dfBull.low 10)
        (troughRightProminence dfBull.low 10)) :=
  ⟨prominence_window_rule.1 defaultDivCfg dfBear ⟨10, 105, 5⟩
      (by with_unfolding_all decide),
    prominence_window_rule.2 defaultDivCfg dfBull ⟨10, 95, 100/19⟩
      (by with_unfolding_all decide)⟩

/-! ## Claim C5: pivots are strict local extrema -/

/-- C5: every reported peak value strictly exceeds each of the 3 values on
its left and each of the 3 on its right (the `argrelextrema` order used by
the source); every reported trough value is strictly below them. -/
theorem pivot_strict_local_extremum :
    (∀ cfg df p, p ∈ findProminentPeaks cfg df →
      p.value = df.high.getD p.index 0 ∧
      ∀ s, 1 ≤ s → s ≤ 3 →
        df.high.getD (p.index - s) 0 < p.value ∧
        df.high.getD (p.index + s) 0 < p.value) ∧
    (∀ cfg df p, p ∈ findProminentTroughs cfg df →
      p.value = df.low.getD p.index 0 ∧
      ∀ s, 1 ≤ s → s ≤ 3 →
        p.value < df.low.getD (p.index - s) 0 ∧
        p.value < df.low.getD (p.index + s) 0) := by
  constructor
  · intro cfg df p h
    obtain ⟨h5, hlt, hrel, hval, -⟩ := findProminentPeaks_mem h
    refine ⟨hval, ?_⟩
    intro s hs1 hs3
    have hall := of_decide_eq_true hrel
    have hmem : s - 1 ∈ List.range 3 := List.mem_range.mpr (by omega)
    have hinst := hall (s - 1) hmem
    have hsucc : s - 1 + 1 = s := by omega
    rw [hsucc] at hinst
    have hmin : min (p.index + s) (df.high.length - 1) = p.index + s :=
      min_eq_left (by omega)
    rw [hmin] at hinst
    rw [hval]
    exact ⟨hinst.2, hinst.1⟩
  · intro cfg df p h
    obtain ⟨h5, hlt, hrel, hval, -⟩ := findProminentTroughs_mem h
    refine ⟨hval, ?_⟩
    intro s hs1 hs3
    have hall := of_decide_eq_true hrel
    have hmem : s - 1 ∈ List.range 3 := List.mem_range.mpr (by omega)
    have hinst := hall (s - 1) hmem
    have hsucc : s - 1 + 1 = s := by omega
    rw [hsucc] at hinst
    have hmin : min (p.index + s) (df.low.length - 1) = p.index + s :=
      min_eq_left (by omega)
    rw [hmin] at hinst
    rw [hval]
    exact ⟨hinst.2, hinst.1⟩

/-- C5 (witness): the extremum property applied to the concrete peak of
`dfBear` and trough of `dfBull`, read off at shift 1. -/
theorem pivot_strict_local_extremum_witness :
    ((105 : ℚ) = dfBear.high.getD 10 0 ∧
      dfBear.high.getD 9 0 < (105 : ℚ) ∧ dfBear.high.getD 11 0 < (105 : ℚ)) ∧
    ((95 : ℚ) = dfBull.low.getD 10 0 ∧
      (95 : ℚ) < dfBull.low.getD 9 0 ∧ (95 : ℚ) < dfBull.low.getD 11 0) := by
  constructor
  · obtain ⟨hval, hs⟩ := pivot_strict_local_extremum.1 defaultDivCfg dfBear
      ⟨10, 105, 5⟩ (by with_unfolding_all decide)
    exact ⟨hval, (hs 1 (by decide) (by decide)).1, (hs 1 (by decide) (by decide)).2⟩
  · obtain ⟨hval, hs⟩ := pivot_strict_local_extremum.2 defaultDivCfg dfBull
      ⟨10, 95, 100/19⟩ (by with_unfolding_all decide)
    exact ⟨hval, (hs 1 (by decide) (by decide)).1, (hs 1 (by decide) (by decide)).2⟩

/-! ## Claim C7: LONG take-profit wins -/

/-- If some candle's high reaches the TP level and no earlier candle's low
reaches the SL level, the LONG scan loop exits WIN at the TP price. -/
theorem simulateLoop_long_win {entry tp sl : ℚ} :
    ∀ (candles : List Candle) (bars k : ℕ), k < candles.length →
    tp ≤ (candles.getD k default).high →
    (∀ j, j < k → sl < (candles.getD j default).low) →
    ∃ b t, simulateLoop entry tp sl .LONG candles bars =
      some ⟨tp, some t, .WIN, (tp - entry) / entry * 100, b⟩ := by
  intro candles
  induction candles with
  | nil => intro bars k hk; simp at hk
  | cons c rest ih =>
    intro bars k hk htp hsl
    by_cases hc : tp ≤ c.high
    · exact ⟨bars, c.timestamp, by simp [simulateLoop, hc]⟩
    · have hk0 : k ≠ 0 := by
        rintro rfl
        rw [List.getD_cons_zero] at htp
        exact hc htp
      have hlow := hsl 0 (Nat.pos_of_ne_zero hk0)
      rw [List.getD_cons_zero] at hlow
      have hrec := ih (bars + 1) (k - 1)
        (by simp at hk; omega)
        (by
          have hkk : k = k - 1 + 1 := by omega
          rw [hkk, List.getD_cons_succ] at htp
          exact htp)
        (by intro j hj
            have := hsl (j + 1) (by omega)
            rwa [List.getD_cons_succ] at this)
      obtain ⟨b, t, hl⟩ := hrec
      refine ⟨b, t, ?_⟩
      simp only [simulateLoop, if_neg hc, if_neg (not_le.mpr hlow)]
      exact hl

/-- C7: a LONG trade entered at 100 with 3% take-profit (TP at 103) and 2%
stop-loss (SL at 98), simulated over a window in which some candle's high
reaches 103 and every earlier candle's low stays above 98, is recorded WIN
with `profit_pct` exactly 3 and exit at the TP price 103 (the levels being
the ones `backtest_single_coin` computes for a bullish signal). -/
theorem long_tp_before_sl_wins (future : List Candle)
    (h : ∃ k, k < future.length ∧ 103 ≤ (future.getD k default).high ∧
      ∀ j, j < k → 98 < (future.getD j default).low) :
    longLevels 100 3 2 = (103, 98) ∧
    (simulateTradeOutcome future 100 (longLevels 100 3 2).1
        (longLevels 100 3 2).2 .LONG).outcome = .WIN ∧
    (simulateTradeOutcome future 100 (longLevels 100 3 2).1
        (longLevels 100 3 2).2 .LONG).profitPct = 3 ∧
    (simulateTradeOutcome future 100 (longLevels 100 3 2).1
        (longLevels 100 3 2).2 .LONG).exitPrice = 103 := by
  obtain ⟨k, hk, htp, hsl⟩ := h
  have hlev : longLevels 100 3 2 = (103, 98) := by
    unfold longLevels
    norm_num
  refine ⟨hlev, ?_⟩
  obtain ⟨b, t, hloop⟩ := simulateLoop_long_win future 1 k hk htp hsl
  have hne : future.isEmpty = false := by
    cases future with
    | nil => simp at hk
    | cons c rest => rfl
  rw [hlev]
  have hout : simulateTradeOutcome future 100 103 98 .LONG =
      ⟨103, some t, .WIN, (103 - 100) / 100 * 100, b⟩ := by
    unfold simulateTradeOutcome
    rw [hne, hloop]
    simp
  rw [hout]
  norm_num

/-- C7 (witness): the theorem applied to a one-candle window whose high
touches 103. -/
theorem long_tp_before_sl_wins_witness :
    longLevels 100 3 2 = (103, 98) ∧
    (simulateTradeOutcome [⟨0, 103, 99, 101⟩] 100 (longLevels 100 3 2).1
        (longLevels 100 3 2).2 .LONG).outcome = .WIN ∧
    (simulateTradeOutcome [⟨0, 103, 99, 101⟩] 100 (longLevels 100 3 2).1
        (longLevels 100 3 2).2 .LONG).profitPct = 3 ∧
    (simulateTradeOutcome [⟨0, 103, 99, 101⟩] 100 (longLevels 100 3 2).1
        (longLevels 100 3 2).2 .LONG).exitPrice = 103 :=
  long_tp_before_sl_wins [⟨0, 103, 99, 101⟩]
    ⟨0, by decide, by with_unfolding_all decide, fun j hj => absurd hj (by omega)⟩

/-! ## Claim C8: the volume-surge gate -/

/-- Unfolding of a passing volume-surge check: a volume column exists, the
series has at least 20 rows, and the mean of the last 3 volumes strictly
exceeds `volume_multiplier` times the mean of the 17 preceding ones. -/
theorem checkVolumeSurge_true {cfg : RSISupportResistanceDetector} {df : DF}
    (h : checkVolumeSurge cfg df = true) :
    ∃ vol, df.volumeCol = some vol ∧ 20 ≤ df.length ∧
      mean (listSlice (vol.length - 20) (vol.length - 3) vol) *
        cfg.volumeMultiplier < mean (vol.drop (vol.length - 3)) := by
  unfold checkVolumeSurge at h
  split at h
  · exact Bool.noConfusion h
  · rename_i vol heq
    split at h
    · exact Bool.noConfusion h
    · rename_i hlen
      exact ⟨vol, heq, Nat.not_lt.mp hlen, of_decide_eq_true h⟩

/-- C8: a support/resistance reversal signal implies the volume surge
condition (mean of the last 3 volumes strictly above `volume_multiplier`
times the mean of the 17 before them); without a volume column, or with
fewer than 20 rows, the gate is `False` and neither detector emits. -/
theorem volume_surge_gate :
    (∀ cfg df s,
      detectRsiSupportReversal cfg df = some s ∨
        detectRsiResistanceReversal cfg df = some s →
      ∃ vol, df.volumeCol = some vol ∧ 20 ≤ df.length ∧
        mean (listSlice (vol.length - 20) (vol.length - 3) vol) *
          cfg.volumeMultiplier < mean (vol.drop (vol.length - 3))) ∧
    (∀ cfg df, df.volumeCol = none ∨ df.length < 20 →
      checkVolumeSurge cfg df = false ∧
      detectRsiSupportReversal cfg df = none ∧
      detectRsiResistanceReversal cfg df = none) := by
  constructor
  · intro cfg df s h
    rcases h with h | h
    · exact checkVolumeSurge_true (detectSupport_factors h).1
    · exact checkVolumeSurge_true (detectResistance_factors h).1
  · intro cfg df hcase
    have hgate : checkVolumeSurge cfg df = false := by
      rcases hcase with hv | hl
      · simp [checkVolumeSurge, hv]
      · unfold checkVolumeSurge
        split
        · rfl
        · rw [if_pos hl]
    refine ⟨hgate, ?_, ?_⟩
    · cases hdet : detectRsiSupportReversal cfg df with
      | none => rfl
      | some s =>
        have := (detectSupport_factors hdet).1
        rw [hgate] at this
        exact Bool.noConfusion this
    · cases hdet : detectRsiResistanceReversal cfg df with
      | none => rfl
      | some s =>
        have := (detectResistance_factors hdet).1
        rw [hgate] at this
        exact Bool.noConfusion this

/-- C8 (witness): the gate theorem applied to `dfSup` (which emits a
support reversal) and to `dfBear` (which has no volume column). -/
theorem volume_surge_gate_witness :
    (∃ vol, dfSup.volumeCol = some vol ∧ 20 ≤ dfSup.length ∧
      mean (listSlice (vol.length - 20) (vol.length - 3) vol) *
        defaultSrCfg.volumeMultiplier < mean (vol.drop (vol.length - 3))) ∧
    (checkVolumeSurge defaultSrCfg dfBear = false ∧
      detectRsiSupportReversal defaultSrCfg dfBear = none ∧
      detectRsiResistanceReversal defaultSrCfg dfBear = none) :=
  ⟨volume_surge_gate.1 defaultSrCfg dfSup _
      (Or.inl (by with_unfolding_all rfl)),
    volume_surge_gate.2 defaultSrCfg dfBear (Or.inl rfl)⟩

/-! ## Claim C9: short series produce no signal -/

/-- C9: every detection entry point returns its empty result on a series
shorter than its minimum window — `None` for the individual detectors, the
empty list for the aggregate entry points; 30 rows for the divergence
detector, 40 for the support/resistance detector. -/
theorem short_series_no_signal :
    (∀ cfg df, df.length < 30 →
      detectBearishDivergence cfg df = none ∧
      detectBullishDivergence cfg df = none ∧
      detectAllDivergences cfg df = []) ∧
    (∀ cfg df, df.length < 40 →
      detectRsiSupportReversal cfg df = none ∧
      detectRsiResistanceReversal cfg df = none ∧
      detectAllReversals cfg df = []) := by
  constructor
  · intro cfg df hlen
    have h1 : detectBearishDivergence cfg df = none := by
      unfold detectBearishDivergence
      rw [if_pos (Or.inr hlen)]
    have h2 : detectBullishDivergence cfg df = none := by
      unfold detectBullishDivergence
      rw [if_pos (Or.inr hlen)]
    refine ⟨h1, h2, ?_⟩
    unfold detectAllDivergences
    rw [h1, h2]
    rfl
  · intro cfg df hlen
    have h1 : detectRsiSupportReversal cfg df = none := by
      unfold detectRsiSupportReversal
      rw [if_pos (Or.inr hlen)]
    have h2 : detectRsiResistanceReversal cfg df = none := by
      unfold detectRsiResistanceReversal
      rw [if_pos (Or.inr hlen)]
    refine ⟨h1, h2, ?_⟩
    unfold detectAllReversals
    rw [h1, h2]
    rfl

/-- C9 (witness): both halves applied to the empty series. -/
theorem short_series_no_signal_witness :
    (detectBearishDivergence defaultDivCfg dfEmpty = none ∧
      detectBullishDivergence defaultDivCfg dfEmpty = none ∧
      detectAllDivergences defaultDivCfg dfEmpty = []) ∧
    (detectRsiSupportReversal defaultSrCfg dfEmpty = none ∧
      detectRsiResistanceReversal defaultSrCfg dfEmpty = none ∧
      detectAllReversals defaultSrCfg dfEmpty = []) :=
  ⟨short_series_no_signal.1 defaultDivCfg dfEmpty (by decide),
    short_series_no_signal.2 defaultSrCfg dfEmpty (by decide)⟩

end RsiBot
